import Mathlib

/-!
Formal model of the task-manager CLI (files app.py and models.py).

The Python sources are shallowly embedded as pure Lean functions:
mutable object state becomes explicit state passing on structures, the
JSON backing file becomes an explicit map from file names to parsed
file contents, wall-clock readings become explicit parameters, and
printing is reflected as returned flags where a claim refers to it.
-/

namespace TaskApp

/-- Wall-clock instants (Python datetime values and time.time readings for
the task store) are modelled as natural numbers; only equality and the
serialization round trip matter for the task store. -/
abbrev DateTime := Nat

/-- Result of datetime.isoformat: an ISO-8601 rendering of a datetime.
The encoding is modelled as an invertible wrapper, since
datetime.fromisoformat parses back exactly the instant that
datetime.isoformat printed. -/
structure IsoString where
  iso : DateTime
  deriving DecidableEq, Repr

/-- Python datetime.isoformat. -/
def DateTime.isoformat (d : DateTime) : IsoString := ⟨d⟩

/-- Python datetime.fromisoformat. -/
def fromisoformat (s : IsoString) : DateTime := s.iso

/-- Task objects (models.py, class Task). created_at is kept as an Option
because to_dict branches on its truthiness, although every constructed
task in fact carries a timestamp. -/
structure Task where
  title : String
  description : String
  completed : Bool
  created_at : Option DateTime
  completed_at : Option DateTime
  deriving DecidableEq, Repr

/-- Task.__init__ (models.py lines 8-13): completed is hard-coded to
False, and created_at falls back to datetime.now() when the argument is
None (datetime values are always truthy in Python). -/
def Task.init (title : String) (description : String)
    (created_at : Option DateTime) (completed_at : Option DateTime)
    (now : DateTime) : Task :=
  { title := title
    description := description
    completed := false
    created_at := some (created_at.getD now)
    completed_at := completed_at }

/-- Task.mark_completed (models.py lines 15-18). -/
def Task.mark_completed (t : Task) (now : DateTime) : Task :=
  { t with completed := true, completed_at := some now }

/-- Task.mark_pending (models.py lines 20-23). -/
def Task.mark_pending (t : Task) : Task :=
  { t with completed := false, completed_at := none }

/-- The JSON dictionary form of a task (models.py to_dict / from_dict).
Fields read through dict.get are Options; title is read with a plain
subscription, so a record without it fails the whole load and is covered
by the malformed-file case of the file model below. -/
structure TaskDict where
  title : String
  description : Option String
  completed : Option Bool
  created_at : Option IsoString
  completed_at : Option IsoString
  deriving DecidableEq, Repr

/-- Task.to_dict (models.py lines 25-33). -/
def Task.to_dict (t : Task) : TaskDict :=
  { title := t.title
    description := some t.description
    completed := some t.completed
    created_at := t.created_at.map DateTime.isoformat
    completed_at := t.completed_at.map DateTime.isoformat }

/-- Task.from_dict (models.py lines 35-53): parses the optional
timestamps, builds the task through Task.__init__ (where now models the
datetime.now() fallback), then overwrites the completed flag from the
dictionary. -/
def Task.from_dict (data : TaskDict) (now : DateTime) : Task :=
  let created_at := data.created_at.map fromisoformat
  let completed_at := data.completed_at.map fromisoformat
  let task := Task.init data.title (data.description.getD "") created_at completed_at now
  { task with completed := data.completed.getD false }

/-- Contents of one file on disk: either text that json.load (or a
subsequent Task.from_dict) rejects, or a parsed list of task records. -/
inductive FileData where
  | malformed
  | records (ds : List TaskDict)
  deriving DecidableEq, Repr

/-- The file system: a map from file names to contents, none meaning the
file does not exist (os.path.exists is false). -/
def FS := String → Option FileData

/-- Whole-file overwrite of one file. -/
def FS.write (fs : FS) (name : String) (d : FileData) : FS :=
  fun n => if n = name then some d else fs n

/-- TaskManager state (models.py lines 62-67): the in-memory task list
and the backing file name. -/
structure TaskManager where
  tasks : List Task
  data_file : String
  deriving DecidableEq, Repr

/-- TaskManager.save_tasks (models.py lines 112-119): serializes every
task with to_dict and overwrites the backing file. -/
def TaskManager.save_tasks (m : TaskManager) (fs : FS) : FS :=
  fs.write m.data_file (FileData.records (m.tasks.map Task.to_dict))

/-- TaskManager.load_tasks (models.py lines 121-130): a missing file
leaves self.tasks untouched, a parse failure is caught and resets
self.tasks to the empty list, and otherwise every record is
deserialized with Task.from_dict. -/
def TaskManager.load_tasks (m : TaskManager) (fs : FS) (now : DateTime) : TaskManager :=
  match fs m.data_file with
  | none => m
  | some FileData.malformed => { m with tasks := [] }
  | some (FileData.records ds) => { m with tasks := ds.map (fun d => Task.from_dict d now) }

/-- TaskManager.__init__ (models.py lines 64-67): starts with an empty
list and immediately calls load_tasks. -/
def TaskManager.init (data_file : String) (fs : FS) (now : DateTime) : TaskManager :=
  TaskManager.load_tasks { tasks := [], data_file := data_file } fs now

/-- TaskManager.add_task (models.py lines 69-74): appends a fresh Task
(built with the two-argument constructor call Task(title, description))
and saves. -/
def TaskManager.add_task (m : TaskManager) (title : String) (description : String)
    (now : DateTime) (fs : FS) : TaskManager × FS :=
  let task := Task.init title description none none now
  let m1 := { m with tasks := m.tasks ++ [task] }
  (m1, m1.save_tasks fs)

/-- TaskManager.complete_task (models.py lines 87-94). The Bool is true
exactly when the invalid-task-number error message is printed; on the
valid branch the task at the 1-based position is marked completed in
place and the list is saved. -/
def TaskManager.complete_task (m : TaskManager) (task_num : Int) (now : DateTime)
    (fs : FS) : TaskManager × FS × Bool :=
  if 1 ≤ task_num ∧ task_num ≤ (m.tasks.length : Int) then
    let m1 := { m with
      tasks := List.modify (fun t => t.mark_completed now) (task_num - 1).toNat m.tasks }
    (m1, m1.save_tasks fs, false)
  else
    (m, fs, true)

/-- TaskManager.delete_task (models.py lines 96-103). The Bool is true
exactly when the invalid-task-number error message is printed; on the
valid branch the task at the 1-based position is popped and the list is
saved. -/
def TaskManager.delete_task (m : TaskManager) (task_num : Int) (fs : FS) :
    TaskManager × FS × Bool :=
  if 1 ≤ task_num ∧ task_num ≤ (m.tasks.length : Int) then
    let m1 := { m with tasks := m.tasks.eraseIdx (task_num - 1).toNat }
    (m1, m1.save_tasks fs, false)
  else
    (m, fs, true)

/-- TaskManager.get_task_count (models.py lines 105-110): total,
completed (a sum of ones over the completed tasks) and pending. -/
def TaskManager.get_task_count (m : TaskManager) : Nat × Nat × Nat :=
  let total := m.tasks.length
  let completed := m.tasks.countP (fun t => t.completed)
  (total, completed, total - completed)

/-- TaskManager.clear_all_tasks (models.py lines 132-136). -/
def TaskManager.clear_all_tasks (m : TaskManager) (fs : FS) : TaskManager × FS :=
  let m1 := { m with tasks := ([] : List Task) }
  (m1, m1.save_tasks fs)

/-- TaskManager.export_tasks with an explicit file name (models.py lines
138-150): writes the serialized tasks to that file. -/
def TaskManager.export_tasks (m : TaskManager) (filename : String) (fs : FS) : FS :=
  fs.write filename (FileData.records (m.tasks.map Task.to_dict))

/-- Outcome reported by import_tasks: the missing-file message, the
caught-exception message, or the success message with the number of
imported records. -/
inductive ImportResult where
  | fileNotFound
  | importError
  | success (count : Nat)
  deriving DecidableEq, Repr

/-- TaskManager.import_tasks (models.py lines 152-167): a nonexistent
file is reported and nothing changes; a file json.load rejects raises
inside the try, is caught, and nothing changes; otherwise the imported
records are appended to the in-memory list and the merged list is saved
to the backing file. -/
def TaskManager.import_tasks (m : TaskManager) (filename : String) (now : DateTime)
    (fs : FS) : TaskManager × FS × ImportResult :=
  match fs filename with
  | none => (m, fs, ImportResult.fileNotFound)
  | some FileData.malformed => (m, fs, ImportResult.importError)
  | some (FileData.records ds) =>
      let imported := ds.map (fun d => Task.from_dict d now)
      let m1 := { m with tasks := m.tasks ++ imported }
      (m1, m1.save_tasks fs, ImportResult.success imported.length)

/-- TimeoutManager state (app.py lines 7-23). Wall-clock readings on the
watchdog side are Ints (differences are taken). app_running mirrors the
bound app instance: none when no app is set, otherwise the app's
running flag. threads_spawned counts the monitor threads ever created,
so that spawning can be observed in the state. -/
structure TimeoutManager where
  timeout_seconds : Int
  last_activity : Int
  is_running : Bool
  app_running : Option Bool
  threads_spawned : Nat
  deriving DecidableEq, Repr

/-- TimeoutManager.__init__ (app.py lines 10-15). -/
def TimeoutManager.init (timeout_seconds : Int) (now : Int) : TimeoutManager :=
  { timeout_seconds := timeout_seconds
    last_activity := now
    is_running := false
    app_running := none
    threads_spawned := 0 }

/-- TimeoutManager.set_app_instance (app.py lines 17-19). -/
def TimeoutManager.set_app_instance (tm : TimeoutManager) (running : Bool) :
    TimeoutManager :=
  { tm with app_running := some running }

/-- TimeoutManager.reset_activity (app.py lines 21-23). -/
def TimeoutManager.reset_activity (tm : TimeoutManager) (now : Int) : TimeoutManager :=
  { tm with last_activity := now }

/-- TimeoutManager.start_timeout (app.py lines 25-33): returns at once
when already running; otherwise flips is_running, resets the activity
timestamp, and spawns the monitor thread. -/
def TimeoutManager.start_timeout (tm : TimeoutManager) (now : Int) : TimeoutManager :=
  if tm.is_running then tm
  else
    { tm with
      is_running := true
      last_activity := now
      threads_spawned := tm.threads_spawned + 1 }

/-- TimeoutManager.stop_timeout (app.py lines 35-39): clears is_running;
the bounded join does not change any modelled state. -/
def TimeoutManager.stop_timeout (tm : TimeoutManager) : TimeoutManager :=
  { tm with is_running := false }

/-- Observable outcome of one iteration of the monitor loop body. -/
structure TickOut where
  tm : TimeoutManager
  exitedLoop : Bool
  printedNotice : Bool
  deriving DecidableEq, Repr

/-- One iteration of TimeoutManager._timeout_monitor (app.py lines
41-57), entered after time.sleep(1) with now the current clock reading:
a cleared is_running flag breaks out of the loop; an inactive span of
at least timeout_seconds prints the timeout notice, clears the bound
app's running flag when an app is bound, and breaks; otherwise the loop
continues. The expiry branch leaves is_running untouched. -/
def TimeoutManager.timeout_monitor_tick (tm : TimeoutManager) (now : Int) : TickOut :=
  if tm.is_running = false then
    { tm := tm, exitedLoop := true, printedNotice := false }
  else
    let inactive_time := now - tm.last_activity
    if tm.timeout_seconds ≤ inactive_time then
      { tm := { tm with app_running := tm.app_running.map (fun _ => false) }
        exitedLoop := true
        printedNotice := true }
    else
      { tm := tm, exitedLoop := false, printedNotice := false }

/-- The monitor loop of _timeout_monitor, run over a list of successive
clock readings (one per one-second poll tick) until the body breaks or
the readings run out. -/
def TimeoutManager.timeout_monitor (tm : TimeoutManager) : List Int → TimeoutManager
  | [] => tm
  | now :: rest =>
      let out := tm.timeout_monitor_tick now
      if out.exitedLoop then out.tm else out.tm.timeout_monitor rest

/-- One line of user input at the menu, as seen by int(): either it
parses as an integer or int() raises ValueError. -/
inductive MenuInput where
  | intLine (n : Int)
  | nonNumeric
  deriving DecidableEq, Repr

/-- TaskManagerApp.get_user_choice (app.py lines 84-92): the parsed
integer is returned unchanged, and the ValueError handler returns 0.
Both paths also call reset_activity, modelled separately. -/
def get_user_choice : MenuInput → Int
  | MenuInput.intLine n => n
  | MenuInput.nonNumeric => 0

/-- The branch of the main loop taken for a choice (app.py run, lines
189-211). -/
inductive MenuBranch where
  | addTask
  | viewTaskList
  | completeTask
  | deleteTask
  | statistics
  | taskHistory
  | exportTasks
  | importTasks
  | clearAllTasks
  | exitProgram
  | invalidChoice
  deriving DecidableEq, Repr

/-- The if/elif dispatch of TaskManagerApp.run (app.py lines 189-211),
in source order: choices 1-9, then 0 (the exit branch that clears
self.running), then the invalid-choice message branch. -/
def run_dispatch (choice : Int) : MenuBranch :=
  if choice = 1 then MenuBranch.addTask
  else if choice = 2 then MenuBranch.viewTaskList
  else if choice = 3 then MenuBranch.completeTask
  else if choice = 4 then MenuBranch.deleteTask
  else if choice = 5 then MenuBranch.statistics
  else if choice = 6 then MenuBranch.taskHistory
  else if choice = 7 then MenuBranch.exportTasks
  else if choice = 8 then MenuBranch.importTasks
  else if choice = 9 then MenuBranch.clearAllTasks
  else if choice = 0 then MenuBranch.exitProgram
  else MenuBranch.invalidChoice

/-- The completion rate printed by TaskManagerApp.show_statistics
(app.py lines 134-143): (completed / total) * 100, printed only when
total > 0. Python computes this in binary floating point; the value is
modelled exactly over the rationals. -/
def completion_rate (m : TaskManager) : Option ℚ :=
  let total := m.get_task_count.1
  let completed := m.get_task_count.2.1
  if 0 < total then some ((completed : ℚ) / (total : ℚ) * 100) else none

/-- Value displayed by the percent format with one decimal place, in
units of a tenth of a percent: the rate rounded to the nearest tenth. -/
def display_tenths (q : ℚ) : Int := ⌊q * 10 + 1 / 2⌋

/-- The completion rate as show_statistics displays it, in tenths of a
percent; none when total = 0 and the rate line is not printed. -/
def show_statistics_rate (m : TaskManager) : Option Int :=
  (completion_rate m).map display_tenths

/-- One mutating operation of the add/delete fragment of the store
interface; add carries the Task constructor arguments and the clock
reading used for created_at. -/
inductive TaskOp where
  | add (title : String) (description : String) (now : DateTime)
  | delete (task_num : Int)
  deriving DecidableEq, Repr

/-- Application of one operation through the corresponding TaskManager
method; delete_task's printed-error flag is dropped. -/
def applyOp (m : TaskManager) (fs : FS) : TaskOp → TaskManager × FS
  | TaskOp.add title description now => m.add_task title description now fs
  | TaskOp.delete n =>
      let r := m.delete_task n fs
      (r.1, r.2.1)

/-- Application of a whole sequence of operations, front to back. -/
def applyOps : List TaskOp → TaskManager → FS → TaskManager × FS
  | [], m, fs => (m, fs)
  | op :: rest, m, fs =>
      applyOps rest (applyOp m fs op).1 (applyOp m fs op).2

/-- Number of add operations in a sequence. -/
def numAdds : List TaskOp → Nat
  | [] => 0
  | TaskOp.add _ _ _ :: rest => numAdds rest + 1
  | TaskOp.delete _ :: rest => numAdds rest

/-- Number of delete operations whose 1-based index is in range for the
state at the moment the operation is applied. -/
def effDeletes : List TaskOp → TaskManager → FS → Nat
  | [], _, _ => 0
  | op :: rest, m, fs =>
      (match op with
       | TaskOp.delete n => if 1 ≤ n ∧ n ≤ (m.tasks.length : Int) then 1 else 0
       | TaskOp.add _ _ _ => 0)
      + effDeletes rest (applyOp m fs op).1 (applyOp m fs op).2

/-- File system with no files, used for concrete instantiations. -/
def fsEmpty : FS := fun _ => none

/-- File system whose every file is unparseable, used for concrete
instantiations. -/
def fsMalformed : FS := fun _ => some FileData.malformed

/-- Sample serialized record, used for concrete instantiations. -/
def dImp : TaskDict := ⟨"b", some "y", some true, some ⟨3⟩, some ⟨4⟩⟩

/-- File system holding one importable file, used for concrete
instantiations. -/
def fsImp : FS := fun n => if n = "in.json" then some (FileData.records [dImp]) else none

/-- C1 counterexample: at a concrete running watchdog state whose
timeout has expired, the monitor-body tick prints the notice, clears
the bound app's run flag and exits the loop, yet is_running stays true:
the expiry branch of _timeout_monitor performs no Running to Idle
transition, contrary to the claim. -/
theorem timeout_expiry_not_marked_idle :
    (TimeoutManager.timeout_monitor_tick ⟨180, 0, true, some true, 1⟩ 180).printedNotice
        = true
    ∧ (TimeoutManager.timeout_monitor_tick ⟨180, 0, true, some true, 1⟩ 180).exitedLoop
        = true
    ∧ (TimeoutManager.timeout_monitor_tick ⟨180, 0, true, some true, 1⟩ 180).tm.app_running
        = some false
    ∧ ¬ (TimeoutManager.timeout_monitor_tick ⟨180, 0, true, some true, 1⟩ 180).tm.is_running
        = false := by
  decide

/-- C1 (amended): when the watchdog is running and a poll tick observes
an inactive span of at least timeout_seconds, the tick prints the
timeout notice, sets the bound app's run flag to false, and exits the
polling loop (the monitor run ends at that tick regardless of later
readings), all without any stop_timeout call; however is_running is
left true by the expiry step. -/
theorem timeout_expiry_behavior (tm : TimeoutManager) (now : Int) (rest : List Int)
    (hrun : tm.is_running = true)
    (hexp : tm.timeout_seconds ≤ now - tm.last_activity) :
    (tm.timeout_monitor_tick now).printedNotice = true
    ∧ (tm.timeout_monitor_tick now).exitedLoop = true
    ∧ (tm.timeout_monitor_tick now).tm.app_running = tm.app_running.map (fun _ => false)
    ∧ (tm.timeout_monitor_tick now).tm.is_running = true
    ∧ tm.timeout_monitor (now :: rest) = (tm.timeout_monitor_tick now).tm := by
  simp [TimeoutManager.timeout_monitor_tick, TimeoutManager.timeout_monitor, hrun, hexp]

/-- C1 witness: the amended statement instantiated at a concrete
running, expired watchdog. -/
theorem timeout_expiry_behavior_witness :
    (TimeoutManager.timeout_monitor_tick ⟨180, 0, true, some true, 1⟩ 500).printedNotice
        = true
    ∧ (TimeoutManager.timeout_monitor_tick ⟨180, 0, true, some true, 1⟩ 500).exitedLoop
        = true
    ∧ (TimeoutManager.timeout_monitor_tick ⟨180, 0, true, some true, 1⟩ 500).tm.app_running
        = some false
    ∧ (TimeoutManager.timeout_monitor_tick ⟨180, 0, true, some true, 1⟩ 500).tm.is_running
        = true
    ∧ TimeoutManager.timeout_monitor ⟨180, 0, true, some true, 1⟩ [500, 501]
        = (TimeoutManager.timeout_monitor_tick ⟨180, 0, true, some true, 1⟩ 500).tm :=
  timeout_expiry_behavior ⟨180, 0, true, some true, 1⟩ 500 [501] rfl (by decide)

/-- C2 counterexample: the numeric menu input 42 is outside 0-9, yet
get_user_choice returns 42 rather than 0, and the main loop dispatches
it to the invalid-choice message branch, not the exit branch. -/
theorem out_of_range_choice_not_exit :
    get_user_choice (MenuInput.intLine 42) ≠ 0
    ∧ run_dispatch (get_user_choice (MenuInput.intLine 42)) ≠ MenuBranch.exitProgram
    ∧ run_dispatch (get_user_choice (MenuInput.intLine 42)) = MenuBranch.invalidChoice := by
  decide

/-- C2 (amended): only non-numeric menu input is mapped to choice 0 and
thereby to the exit branch; a numeric selection is returned unchanged
by get_user_choice, and a numeric selection outside 0-9 takes the
invalid-choice message branch of the main loop, not the exit branch. -/
theorem menu_choice_mapping :
    (get_user_choice MenuInput.nonNumeric = 0
      ∧ run_dispatch (get_user_choice MenuInput.nonNumeric) = MenuBranch.exitProgram)
    ∧ ∀ n : Int,
        get_user_choice (MenuInput.intLine n) = n
        ∧ ((n < 0 ∨ 9 < n) → run_dispatch n = MenuBranch.invalidChoice) := by
  refine ⟨⟨rfl, by decide⟩, fun n => ⟨rfl, fun h => ?_⟩⟩
  unfold run_dispatch
  split_ifs <;> first | rfl | omega

/-- C2 witness: the amended statement instantiated at the out-of-range
numeric input 42. -/
theorem menu_choice_mapping_witness :
    get_user_choice (MenuInput.intLine 42) = 42
    ∧ run_dispatch 42 = MenuBranch.invalidChoice :=
  ⟨(menu_choice_mapping.2 42).1, (menu_choice_mapping.2 42).2 (Or.inr (by decide))⟩

/-- C8: start_timeout called while the watchdog is already running is a
no-op: the whole state, including last_activity and the count of
spawned monitor threads, is returned unchanged. -/
theorem start_timeout_idempotent (tm : TimeoutManager) (now : Int)
    (h : tm.is_running = true) :
    tm.start_timeout now = tm := by
  simp [TimeoutManager.start_timeout, h]

/-- C8 witness: start_timeout on a concrete running watchdog returns it
unchanged. -/
theorem start_timeout_idempotent_witness :
    TimeoutManager.start_timeout ⟨180, 5, true, some true, 1⟩ 99
      = ⟨180, 5, true, some true, 1⟩ :=
  start_timeout_idempotent ⟨180, 5, true, some true, 1⟩ 99 rfl

/-- C3: completing or deleting by an out-of-range 1-based index (at most
0, or greater than the current task count) leaves the manager, the task
sequence and the file system unchanged and reports the invalid-number
error. -/
theorem out_of_range_complete_delete_noop (m : TaskManager) (n : Int) (now : DateTime)
    (fs : FS) (h : n ≤ 0 ∨ (m.tasks.length : Int) < n) :
    m.complete_task n now fs = (m, fs, true) ∧ m.delete_task n fs = (m, fs, true) := by
  have hc : ¬ (1 ≤ n ∧ n ≤ (m.tasks.length : Int)) := by omega
  unfold TaskManager.complete_task TaskManager.delete_task
  rw [if_neg hc, if_neg hc]
  exact ⟨rfl, rfl⟩

/-- C3 witness: index 5 on a one-task manager is rejected by both
operations with the state unchanged. -/
theorem out_of_range_complete_delete_noop_witness :
    TaskManager.complete_task ⟨[⟨"a", "", false, some 0, none⟩], "tasks.json"⟩ 5 3 fsEmpty
        = (⟨[⟨"a", "", false, some 0, none⟩], "tasks.json"⟩, fsEmpty, true)
    ∧ TaskManager.delete_task ⟨[⟨"a", "", false, some 0, none⟩], "tasks.json"⟩ 5 fsEmpty
        = (⟨[⟨"a", "", false, some 0, none⟩], "tasks.json"⟩, fsEmpty, true) :=
  out_of_range_complete_delete_noop ⟨[⟨"a", "", false, some 0, none⟩], "tasks.json"⟩ 5 3
    fsEmpty (Or.inr (by decide))

/-- C7: constructing a TaskManager over a missing or malformed backing
file yields an empty task list; both cases are handled inside
load_tasks (the model is total, mirroring that the except handler stops
any exception from propagating). -/
theorem load_missing_or_malformed_empty (file : String) (fs : FS) (now : DateTime)
    (h : fs file = none ∨ fs file = some FileData.malformed) :
    (TaskManager.init file fs now).tasks = [] := by
  unfold TaskManager.init TaskManager.load_tasks
  rcases h with h | h <;> simp [h]

/-- C7 witness: construction over the empty file system and over an
unparseable backing file both start empty. -/
theorem load_missing_or_malformed_empty_witness :
    (TaskManager.init "tasks.json" fsEmpty 0).tasks = []
    ∧ (TaskManager.init "tasks.json" fsMalformed 0).tasks = [] :=
  ⟨load_missing_or_malformed_empty "tasks.json" fsEmpty 0 (Or.inl rfl),
   load_missing_or_malformed_empty "tasks.json" fsMalformed 0 (Or.inr rfl)⟩

/-- C6: importing from an existing well-formed file appends its records,
deserialized in order, after the existing in-memory tasks and persists
the merged list to the backing file; importing from a nonexistent file
reports file-not-found and changes nothing, and the model is total so
no error escapes. -/
theorem import_tasks_behavior (m : TaskManager) (filename : String) (now : DateTime)
    (fs : FS) :
    (∀ ds, fs filename = some (FileData.records ds) →
        m.import_tasks filename now fs =
          ({ m with tasks := m.tasks ++ ds.map (fun d => Task.from_dict d now) },
           TaskManager.save_tasks
             { m with tasks := m.tasks ++ ds.map (fun d => Task.from_dict d now) } fs,
           ImportResult.success (ds.map (fun d => Task.from_dict d now)).length))
    ∧ (fs filename = none →
        m.import_tasks filename now fs = (m, fs, ImportResult.fileNotFound)) := by
  constructor
  · intro ds h
    unfold TaskManager.import_tasks
    rw [h]
  · intro h
    unfold TaskManager.import_tasks
    rw [h]

/-- C6 witness: the record of in.json is appended after the existing
task and the merged list is saved, while importing missing.json reports
file-not-found and changes nothing. -/
theorem import_tasks_behavior_witness :
    TaskManager.import_tasks ⟨[⟨"a", "x", false, some 0, none⟩], "tasks.json"⟩
        "in.json" 7 fsImp
        = (⟨[⟨"a", "x", false, some 0, none⟩, Task.from_dict dImp 7], "tasks.json"⟩,
           TaskManager.save_tasks
             ⟨[⟨"a", "x", false, some 0, none⟩, Task.from_dict dImp 7], "tasks.json"⟩ fsImp,
           ImportResult.success 1)
    ∧ TaskManager.import_tasks ⟨[⟨"a", "x", false, some 0, none⟩], "tasks.json"⟩
        "missing.json" 7 fsImp
        = (⟨[⟨"a", "x", false, some 0, none⟩], "tasks.json"⟩, fsImp,
           ImportResult.fileNotFound) :=
  ⟨(import_tasks_behavior ⟨[⟨"a", "x", false, some 0, none⟩], "tasks.json"⟩
      "in.json" 7 fsImp).1 [dImp] rfl,
   (import_tasks_behavior ⟨[⟨"a", "x", false, some 0, none⟩], "tasks.json"⟩
      "missing.json" 7 fsImp).2 rfl⟩

/-- C10: every task appended by add_task starts pending: the new task
has completed false and completed_at none, the Task constructor sets
completed to false whatever its arguments, and the completed count of
get_task_count is unchanged by an add. -/
theorem add_task_starts_pending (m : TaskManager) (title : String) (description : String)
    (now : DateTime) (fs : FS) :
    (m.add_task title description now fs).1.tasks
        = m.tasks ++ [Task.init title description none none now]
    ∧ (Task.init title description none none now).completed = false
    ∧ (Task.init title description none none now).completed_at = none
    ∧ (∀ (c ca : Option DateTime) (n2 : DateTime),
        (Task.init title description c ca n2).completed = false)
    ∧ (m.add_task title description now fs).1.get_task_count.2.1
        = m.get_task_count.2.1 := by
  refine ⟨rfl, rfl, rfl, fun c ca n2 => rfl, ?_⟩
  simp [TaskManager.add_task, TaskManager.get_task_count, List.countP_append,
    List.countP_cons, Task.init]

/-- Deserializing the serialization of a task recovers it exactly,
provided the task carries a creation timestamp (every constructed task
does). -/
theorem from_dict_to_dict (t : Task) (now2 : DateTime)
    (h : t.created_at.isSome = true) :
    Task.from_dict t.to_dict now2 = t := by
  cases t with
  | mk title description completed created_at completed_at =>
    cases created_at with
    | none => simp at h
    | some d => cases completed_at <;> rfl

/-- Serialization then deserialization over a whole list of tasks is the
identity when every task carries a creation timestamp. -/
theorem map_from_dict_to_dict (l : List Task) (now2 : DateTime)
    (h : ∀ t ∈ l, t.created_at.isSome = true) :
    (l.map Task.to_dict).map (fun d => Task.from_dict d now2) = l := by
  induction l with
  | nil => rfl
  | cons a as ih =>
      have h1 := h a (List.mem_cons_self a as)
      have h2 : ∀ t ∈ as, t.created_at.isSome = true :=
        fun t ht => h t (List.mem_cons_of_mem a ht)
      simp [from_dict_to_dict a now2 h1, ih h2]

/-- C4: saving a manager's tasks to the backing file and constructing a
manager over the result restores exactly the same task list, field for
field, whatever clock reading the reload happens at. The hypothesis
that every task carries a creation timestamp holds for every task the
constructor can build. -/
theorem save_load_round_trip (m : TaskManager) (fs : FS) (now2 : DateTime)
    (hwf : ∀ t ∈ m.tasks, t.created_at.isSome = true) :
    (TaskManager.init m.data_file (m.save_tasks fs) now2).tasks = m.tasks := by
  have hfile : (m.save_tasks fs) m.data_file
      = some (FileData.records (m.tasks.map Task.to_dict)) := by
    simp [TaskManager.save_tasks, FS.write]
  simp [TaskManager.init, TaskManager.load_tasks, hfile]
  rw [← List.map_map]
  exact map_from_dict_to_dict m.tasks now2 hwf

/-- C4 witness: a pending and a completed task survive the save /
reload round trip unchanged. -/
theorem save_load_round_trip_witness :
    (TaskManager.init "tasks.json"
        (TaskManager.save_tasks
          ⟨[⟨"a", "d1", false, some 0, none⟩, ⟨"b", "d2", true, some 1, some 2⟩],
           "tasks.json"⟩ fsEmpty) 9).tasks
      = [⟨"a", "d1", false, some 0, none⟩, ⟨"b", "d2", true, some 1, some 2⟩] :=
  save_load_round_trip
    ⟨[⟨"a", "d1", false, some 0, none⟩, ⟨"b", "d2", true, some 1, some 2⟩], "tasks.json"⟩
    fsEmpty 9 (by decide)

/-- Invariant behind C5: over any operation sequence, final count plus
the effective deletes equals the initial count plus the adds. -/
theorem applyOps_length_eq (ops : List TaskOp) :
    ∀ (m : TaskManager) (fs : FS),
      (applyOps ops m fs).1.tasks.length + effDeletes ops m fs
        = m.tasks.length + numAdds ops := by
  induction ops with
  | nil => intro m fs; simp [applyOps, effDeletes, numAdds]
  | cons op rest ih =>
      intro m fs
      have key := ih (applyOp m fs op).1 (applyOp m fs op).2
      cases op with
      | add title description now =>
          have hlen : (applyOp m fs (TaskOp.add title description now)).1.tasks.length
              = m.tasks.length + 1 := by
            simp [applyOp, TaskManager.add_task]
          simp only [applyOps, effDeletes, numAdds]
          omega
      | delete n =>
          by_cases hin : 1 ≤ n ∧ n ≤ (m.tasks.length : Int)
          · have hlen : (applyOp m fs (TaskOp.delete n)).1.tasks.length
                = m.tasks.length - 1 := by
              simp [applyOp, TaskManager.delete_task, hin, List.length_eraseIdx]
              omega
            have hpos : 1 ≤ m.tasks.length := by omega
            simp only [applyOps, effDeletes, numAdds]
            rw [if_pos hin]
            omega
          · have hsame : (applyOp m fs (TaskOp.delete n)).1 = m := by
              simp [applyOp, TaskManager.delete_task, hin]
            simp only [applyOps, effDeletes, numAdds]
            rw [if_neg hin]
            rw [hsame] at key ⊢
            omega

/-- C5: starting from an empty manager, after any sequence of add and
delete operations the task count equals the number of adds minus the
number of deletes whose index was in range when applied; the effective
deletes never exceed the adds, and the count is a natural number, never
negative (out-of-range deletes are no-ops). -/
theorem add_delete_count (ops : List TaskOp) (file : String) (fs : FS) :
    (applyOps ops ⟨[], file⟩ fs).1.tasks.length
        = numAdds ops - effDeletes ops ⟨[], file⟩ fs
    ∧ effDeletes ops ⟨[], file⟩ fs ≤ numAdds ops
    ∧ 0 ≤ (applyOps ops ⟨[], file⟩ fs).1.tasks.length := by
  have h := applyOps_length_eq ops ⟨[], file⟩ fs
  simp only [List.length_nil, Nat.zero_add] at h
  omega

/-- C9: with 3 tasks of which 2 are completed, show_statistics computes
the completion rate (2 / 3) * 100 and displays it to one decimal place
as 66.7 percent (667 tenths); in general, for a nonzero total the
displayed value is (completed / total) * 100 rounded to one decimal,
with completed the count of completed tasks. Python's binary floating
point is modelled exactly over the rationals. -/
theorem statistics_completion_rate (m : TaskManager)
    (h3 : m.tasks.length = 3) (hc : m.tasks.countP (fun t => t.completed) = 2) :
    completion_rate m = some ((2 : ℚ) / 3 * 100)
    ∧ show_statistics_rate m = some 667
    ∧ ∀ m2 : TaskManager, 0 < m2.tasks.length →
        show_statistics_rate m2
          = some (display_tenths
              ((m2.tasks.countP (fun t => t.completed) : ℚ)
                / (m2.tasks.length : ℚ) * 100)) := by
  have h1 : completion_rate m = some ((2 : ℚ) / 3 * 100) := by
    norm_num [completion_rate, TaskManager.get_task_count, h3, hc]
  refine ⟨h1, ?_, ?_⟩
  · rw [show_statistics_rate, h1]
    have : display_tenths ((2 : ℚ) / 3 * 100) = 667 := by
      unfold display_tenths
      norm_num
    simp [this]
  · intro m2 h0
    simp [show_statistics_rate, completion_rate, TaskManager.get_task_count, h0]

/-- C9 witness: a concrete manager holding three tasks, two of them
completed, yields the rate (2 / 3) * 100 displayed as 667 tenths. -/
theorem statistics_completion_rate_witness :
    completion_rate
        ⟨[⟨"a", "", true, some 0, some 1⟩, ⟨"b", "", true, some 0, some 2⟩,
          ⟨"c", "", false, some 0, none⟩], "tasks.json"⟩
      = some ((2 : ℚ) / 3 * 100)
    ∧ show_statistics_rate
        ⟨[⟨"a", "", true, some 0, some 1⟩, ⟨"b", "", true, some 0, some 2⟩,
          ⟨"c", "", false, some 0, none⟩], "tasks.json"⟩
      = some 667 :=
  ⟨(statistics_completion_rate
      ⟨[⟨"a", "", true, some 0, some 1⟩, ⟨"b", "", true, some 0, some 2⟩,
        ⟨"c", "", false, some 0, none⟩], "tasks.json"⟩ (by decide) (by decide)).1,
   (statistics_completion_rate
      ⟨[⟨"a", "", true, some 0, some 1⟩, ⟨"b", "", true, some 0, some 2⟩,
        ⟨"c", "", false, some 0, none⟩], "tasks.json"⟩ (by decide) (by decide)).2.1⟩

end TaskApp
